import Mathlib

/-!
Verification development for the TBC-volume-control repository
(`src/TBC-volume-control.ino`, plain time-based volume controller, and
`src/unnamed/part_000`, the "Music Construction Machine" (MCMC) variant with
a crank-speed safety governor).

The Lean definitions below are a shallow embedding of the C++ (Arduino)
source: module-level mutable globals become explicit state structures, each
per-tick C function becomes a pure state-transition function, `millis()` is
passed in as an explicit `now : Int`, and the unbounded `while (!match_time)`
scan loop becomes a fuel-indexed recursion (1440 fuel corresponds to the
24-hour bound argued for the loop).
-/

namespace TBC

/-! ## ScheduleMatcher (`set_volume_to_current_time`, both variants)

The `.ino` variant (lines 491-513) and the MCMC variant (part_000 lines
637-667) share the backward minute-by-minute scan; they differ only in the
night branch: the `.ino` variant sets `volume = night_volume`, the MCMC
variant sets only `match_time = NIGHT`.
-/

/-- Period code `DAY` (`#define DAY 1` / `match_time=1`). -/
def DAY : Nat := 1

/-- Period code `EVENING` (`#define EVENING 2` / `match_time=2`). -/
def EVENING : Nat := 2

/-- Period code `NIGHT` (`#define NIGHT 3` / `match_time=3`). -/
def NIGHT : Nat := 3

/-- The schedule configuration globals `day_hour` .. `night_volume`
(read from EEPROM at boot). -/
structure ScheduleConfig where
  day_hour : Nat
  day_minute : Nat
  day_volume : Nat
  evening_hour : Nat
  evening_minute : Nat
  evening_volume : Nat
  night_hour : Nat
  night_minute : Nat
  night_volume : Nat
  deriving DecidableEq

/-- One backward scan step of the loop tail in `set_volume_to_current_time`:
`if (scan_minute>0) scan_minute--; else { scan_minute=59; if (scan_hour>0)
scan_hour--; else scan_hour=23; }`. -/
def scanStep : Nat × Nat → Nat × Nat
  | (sh, sm) =>
    if 0 < sm then (sh, sm - 1)
    else if 0 < sh then (sh - 1, 59)
    else (23, 59)

/-- The sequential if-chain of one loop iteration in the `.ino` variant
(lines 499-501): returns the `(match_time, volume)` pair produced at scanned
minute `(sh, sm)` when `volume` held `vol` before the iteration. -/
def checkMinute (cfg : ScheduleConfig) (sh sm vol : Nat) : Nat × Nat :=
  let r : Nat × Nat := (0, vol)
  let r := if sh = cfg.day_hour ∧ sm = cfg.day_minute then (DAY, cfg.day_volume) else r
  let r := if sh = cfg.evening_hour ∧ sm = cfg.evening_minute then (EVENING, cfg.evening_volume) else r
  if sh = cfg.night_hour ∧ sm = cfg.night_minute then (NIGHT, cfg.night_volume) else r

/-- The sequential if-chain of one loop iteration in the MCMC variant
(part_000 lines 645-655): identical to `checkMinute` except that the night
branch sets only `match_time = NIGHT` and leaves `volume` untouched. -/
def checkMinuteMcmc (cfg : ScheduleConfig) (sh sm vol : Nat) : Nat × Nat :=
  let r : Nat × Nat := (0, vol)
  let r := if sh = cfg.day_hour ∧ sm = cfg.day_minute then (DAY, cfg.day_volume) else r
  let r := if sh = cfg.evening_hour ∧ sm = cfg.evening_minute then (EVENING, cfg.evening_volume) else r
  if sh = cfg.night_hour ∧ sm = cfg.night_minute then (NIGHT, r.2) else r

/-- The `while (!match_time)` backward scan loop, fuel-indexed (the C loop has
no bound; 1440 fuel corresponds to one full 24-hour cycle of minutes).
Returns `some (match_time, volume)` when a trigger minute is found within
`fuel` scan steps, `none` otherwise. -/
def scanLoop (check : Nat → Nat → Nat → Nat × Nat) :
    Nat → Nat → Nat → Nat → Option (Nat × Nat)
  | 0, _, _, _ => none
  | fuel + 1, sh, sm, vol =>
    let r := check sh sm vol
    if r.1 ≠ 0 then some r
    else scanLoop check fuel (scanStep (sh, sm)).1 (scanStep (sh, sm)).2 r.2

/-- `set_volume_to_current_time` of the `.ino` variant, run from current time
`(h, m)` with previous global `volume = vol`, with the 24-hour fuel bound. -/
def set_volume_to_current_time (cfg : ScheduleConfig) (h m vol : Nat) : Option (Nat × Nat) :=
  scanLoop (checkMinute cfg) 1440 h m vol

/-- `set_volume_to_current_time` of the MCMC variant (part_000 lines 637-667),
with the 24-hour fuel bound. -/
def set_volume_to_current_time_mcmc (cfg : ScheduleConfig) (h m vol : Nat) : Option (Nat × Nat) :=
  scanLoop (checkMinuteMcmc cfg) 1440 h m vol

/-- A scanned `(hour, minute)` pair in the range the RTC produces. -/
def validTime (t : Nat × Nat) : Prop := t.1 < 24 ∧ t.2 < 60

/-- Minute-of-day index of a scanned `(hour, minute)` pair. -/
def scanIdx (t : Nat × Nat) : Nat := t.1 * 60 + t.2

/-- `(sh, sm)` coincides with at least one configured trigger time, i.e. at
least one branch of the if-chain fires at that scanned minute. -/
def hitsAny (cfg : ScheduleConfig) (t : Nat × Nat) : Prop :=
  (t.1 = cfg.day_hour ∧ t.2 = cfg.day_minute) ∨
  (t.1 = cfg.evening_hour ∧ t.2 = cfg.evening_minute) ∨
  (t.1 = cfg.night_hour ∧ t.2 = cfg.night_minute)

/-- Concrete configuration used in the spec's worked example:
Day=08:00 (volume 77), Evening=18:00 (volume 40), Night=23:00 (volume 5). -/
def exampleCfg : ScheduleConfig :=
  { day_hour := 8, day_minute := 0, day_volume := 77
    evening_hour := 18, evening_minute := 0, evening_volume := 40
    night_hour := 23, night_minute := 0, night_volume := 5 }

/-! ## ActuatorDriver (`smooth_servo`, identical in both variants)

The C function reads globals `p_desired_servo_pos`, `servo_pos`,
`detach_timeout` and drives `myservo.attach` / `myservo.detach`; the
`attached : Bool` field records the servo power state those calls set.
The function body is four sequential statement blocks, embedded one
definition each so the composition mirrors the source line order.
-/

/-- The actuator globals mutated by `smooth_servo`. Positions are `int` in C,
embedded as `Int`; `detach_timeout` only ever holds small non-negative
counts, embedded as `Nat`. -/
structure ServoState where
  p_desired_servo_pos : Int
  servo_pos : Int
  detach_timeout : Nat
  attached : Bool
  deriving DecidableEq

/-- Block 1 of `smooth_servo`: `if (desired_servo_pos != p_desired_servo_pos)
{ myservo.attach(6); p_desired_servo_pos = desired_servo_pos;
detach_timeout = 0; }`. -/
def servo_attach_block (desired : Int) (s : ServoState) : ServoState :=
  if desired ≠ s.p_desired_servo_pos then
    { s with attached := true, p_desired_servo_pos := desired, detach_timeout := 0 }
  else s

/-- The net `servo_pos` produced by the movement block's sequential
assignments: `if (desired>servo_pos)servo_pos++; if (desired<servo_pos)
servo_pos--; if (direct_access==1)servo_pos=desired;` (note the second test
reads the already-incremented value, exactly as in the source). -/
def servo_step_pos (desired : Int) (direct_access : Nat) (pos : Int) : Int :=
  let pos1 := if desired > pos then pos + 1 else pos
  let pos2 := if desired < pos1 then pos1 - 1 else pos1
  if direct_access = 1 then desired else pos2

/-- Block 2 of `smooth_servo`: the `if (desired_servo_pos != servo_pos)`
movement block, including its trailing
`if (desired_servo_pos==servo_pos)detach_timeout++;`
(the `myservo.write` call drives hardware only and carries no state). -/
def servo_move_block (desired : Int) (direct_access : Nat) (s : ServoState) : ServoState :=
  if desired ≠ s.servo_pos then
    { s with
      servo_pos := servo_step_pos desired direct_access s.servo_pos,
      detach_timeout :=
        if desired = servo_step_pos desired direct_access s.servo_pos then
          s.detach_timeout + 1
        else s.detach_timeout }
  else s

/-- Block 3 of `smooth_servo`:
`if (desired_servo_pos==servo_pos && detach_timeout<51) detach_timeout++;`. -/
def servo_idle_block (desired : Int) (s : ServoState) : ServoState :=
  if desired = s.servo_pos ∧ s.detach_timeout < 51 then
    { s with detach_timeout := s.detach_timeout + 1 }
  else s

/-- Block 4 of `smooth_servo`: `if (detach_timeout == 50) myservo.detach();`. -/
def servo_detach_block (s : ServoState) : ServoState :=
  if s.detach_timeout = 50 then { s with attached := false } else s

/-- `smooth_servo(destination, direct_access)`: one per-tick invocation of the
actuator driver (`.ino` lines 515-537, part_000 lines 669-691). -/
def smooth_servo (destination : Int) (direct_access : Nat) (s : ServoState) : ServoState :=
  servo_detach_block (servo_idle_block destination
    (servo_move_block destination direct_access (servo_attach_block destination s)))

/-- Concrete actuator state used to exercise the power-down timing: previous
target 0, physical position 5, idle counter saturated at 51, servo detached. -/
def servoCexState : ServoState :=
  { p_desired_servo_pos := 0, servo_pos := 5, detach_timeout := 51, attached := false }

/-- Concrete actuator state used as a witness input for the lifecycle
theorem: previous target 0, physical position 7, idle counter 51, detached. -/
def servoWitState : ServoState :=
  { p_desired_servo_pos := 0, servo_pos := 7, detach_timeout := 51, attached := false }

/-- Concrete actuator state used as a witness input for the motion theorem. -/
def servoMotionWitState : ServoState :=
  { p_desired_servo_pos := 0, servo_pos := 10, detach_timeout := 0, attached := true }

/-! ## SafetyGovernor (`measure_crank_speed`, MCMC variant only)

part_000 lines 184-229. The globals `rotation`, `crank_speed_limit_count`,
`crank_time`, `p_crank_time`, `ms_per_rotation` become state fields;
`millis()` is the explicit input `now`; the instantaneous rotation-switch
reading (`!ROTATION_SWITCH`, active-low with pull-up) is the input
`switch_closed`. `mech_on` is the clutch pin (pin 10) driven by `MECH_OFF`,
and `lockout_fired` records whether the blocking lockout countdown of lines
212-228 ran during this evaluation (it is an output of the call, reset at
the start of each evaluation like the local `rotation_trigger`). -/

/-- Persisted governor configuration: `rpm_thresh` (minimum milliseconds per
rotation) and `off_delay` (lockout duration in seconds). -/
structure CrankConfig where
  rpm_thresh : Int
  off_delay : Nat
  deriving DecidableEq

/-- The governor globals mutated by `measure_crank_speed`, plus the clutch
pin state and the per-call lockout observable. -/
structure CrankState where
  rotation : Nat
  crank_speed_limit_count : Nat
  crank_time : Int
  p_crank_time : Int
  ms_per_rotation : Int
  mech_on : Bool
  lockout_fired : Bool
  deriving DecidableEq

/-- The violation-counter update of part_000 lines 202-209:
`if (ms_per_rotation < rpm_thresh) crank_speed_limit_count++;
else crank_speed_limit_count = 0;`. -/
def crank_count_update (thresh msr : Int) (cnt : Nat) : Nat :=
  if msr < thresh then cnt + 1 else 0

/-- One evaluation of `measure_crank_speed` (part_000 lines 184-229). -/
def measure_crank_speed (cfg : CrankConfig) (switch_closed : Bool) (now : Int)
    (s : CrankState) : CrankState :=
  let rot : Nat := if switch_closed = true then 1 else 0
  let s1 :=
    if switch_closed = true ∧ s.rotation = 0 then
      { s with
        rotation := rot,
        p_crank_time := s.crank_time,
        crank_time := now,
        ms_per_rotation := now - s.crank_time,
        crank_speed_limit_count :=
          crank_count_update cfg.rpm_thresh (now - s.crank_time) s.crank_speed_limit_count }
    else { s with rotation := rot }
  if 5 ≤ s1.crank_speed_limit_count then
    { s1 with mech_on := false, crank_speed_limit_count := 0, lockout_fired := true }
  else
    { s1 with lockout_fired := false }

/-- Concrete governor configuration for witnesses: 400 ms threshold, 30 s
lockout. -/
def crankWitCfg : CrankConfig := { rpm_thresh := 400, off_delay := 30 }

/-- Concrete governor state for the C1 witness: 4 accumulated violations,
switch open last tick, last trigger at t=1000 ms, clutch engaged. -/
def crankWitState : CrankState :=
  { rotation := 0, crank_speed_limit_count := 4, crank_time := 1000,
    p_crank_time := 700, ms_per_rotation := 300, mech_on := true,
    lockout_fired := false }

/-- Concrete governor state with a rising edge pending: switch open last
tick (rotation = 0), 2 accumulated violations, last trigger at t=1000 ms. -/
def crankEdgeState : CrankState :=
  { rotation := 0, crank_speed_limit_count := 2, crank_time := 1000,
    p_crank_time := 700, ms_per_rotation := 300, mech_on := true,
    lockout_fired := false }

/-- Concrete governor state for the C9 witness: switch already closed last
tick (rotation = 1), 2 accumulated violations. -/
def crankHeldState : CrankState :=
  { rotation := 1, crank_speed_limit_count := 2, crank_time := 1000,
    p_crank_time := 700, ms_per_rotation := 300, mech_on := true,
    lockout_fired := false }

/-! ## Configuration store (EEPROM)

`EEPROM.write(addr, value)` on the AVR stores a single byte: the `int`
argument is truncated to 8 bits, exactly as the spec's store contract says
("read(key) -> byte, write(key, byte) ... values are 8-bit"). `EEPROM.read`
returns that byte. -/

/-- EEPROM address `RPM_THRESH` (`#define RPM_THRESH 18`). -/
def RPM_THRESH : Nat := 18

/-- EEPROM address `OFF_DELAY` (`#define OFF_DELAY 16`). -/
def OFF_DELAY : Nat := 16

/-- EEPROM address `DAY_VOLUME` (`#define DAY_VOLUME 4`). -/
def DAY_VOLUME : Nat := 4

/-- The byte-wide `EEPROM.write`: the written value is truncated to one byte. -/
def EEPROM_write (store : Nat → Nat) (addr val : Nat) : Nat → Nat :=
  fun a => if a = addr then val % 256 else store a

/-- The byte-wide `EEPROM.read`. -/
def EEPROM_read (store : Nat → Nat) (addr : Nat) : Nat := store addr

/-! ## Night power-down (`auto_off_at_night`, MCMC variant, part_000 lines
171-182) -/

/-- The three binary outputs gated by the active period: the clutch pin
(`MECH_ON`/`MECH_OFF`), the mixer relay and the light relay. -/
structure MachineOutputs where
  mech_on : Bool
  mixer : Bool
  light : Bool
  deriving DecidableEq

/-- `auto_off_at_night()`: switches everything off when `match_time == NIGHT`
and on when `match_time` is `DAY` or `EVENING`; other values leave the pins
untouched. -/
def auto_off_at_night (mt : Nat) (o : MachineOutputs) : MachineOutputs :=
  let o1 := if mt = NIGHT then { o with mech_on := false, mixer := false, light := false } else o
  if mt = DAY ∨ mt = EVENING then { o1 with mech_on := true, mixer := true, light := true } else o1

/-- Concrete schedule configuration in which the Evening and Night entries
share the trigger minute 22:00 (Day at 08:00). -/
def tieCfg : ScheduleConfig :=
  { day_hour := 8, day_minute := 0, day_volume := 77
    evening_hour := 22, evening_minute := 0, evening_volume := 40
    night_hour := 22, night_minute := 0, night_volume := 5 }

/-- Concrete schedule configuration in which all three entries share the
trigger minute 09:30. -/
def tripleTieCfg : ScheduleConfig :=
  { day_hour := 9, day_minute := 30, day_volume := 77
    evening_hour := 9, evening_minute := 30, evening_volume := 40
    night_hour := 9, night_minute := 30, night_volume := 5 }

end TBC

namespace TBC

set_option maxRecDepth 4000 in
/-- C3: with entries Day=08:00, Evening=18:00, Night=23:00, a query at 20:15
returns period Evening (the most recent past trigger), and a query at 07:59
returns period Night (wrapping backward across midnight to the previous
day's 23:00 trigger). -/
theorem schedule_matcher_examples :
    set_volume_to_current_time exampleCfg 20 15 0 = some (EVENING, 40) ∧
    set_volume_to_current_time exampleCfg 7 59 0 = some (NIGHT, 5) := by
  constructor <;> rfl

theorem scanStep_valid {t : Nat × Nat} (h : validTime t) : validTime (scanStep t) := by
  rcases t with ⟨sh, sm⟩
  simp only [validTime, scanStep] at *
  split_ifs <;> constructor <;> simp <;> omega

theorem scanStep_idx {t : Nat × Nat} (h : validTime t) :
    scanIdx (scanStep t) = (scanIdx t + 1439) % 1440 := by
  rcases t with ⟨sh, sm⟩
  obtain ⟨h1, h2⟩ := h
  simp only [validTime, scanStep, scanIdx] at *
  split_ifs <;> simp <;> omega

theorem scanIter_valid (k : Nat) {t : Nat × Nat} (h : validTime t) :
    validTime (scanStep^[k] t) := by
  induction k with
  | zero => simpa using h
  | succ n ih => rw [Function.iterate_succ_apply']; exact scanStep_valid ih

theorem scanIter_idx (k : Nat) {t : Nat × Nat} (h : validTime t) :
    scanIdx (scanStep^[k] t) = (scanIdx t + 1439 * k) % 1440 := by
  induction k with
  | zero =>
    obtain ⟨h1, h2⟩ := h
    simp only [Function.iterate_zero_apply, scanIdx] at *
    omega
  | succ n ih =>
    rw [Function.iterate_succ_apply', scanStep_idx (scanIter_valid n h), ih,
      Nat.mod_add_mod]
    omega

theorem scanIdx_inj {t t' : Nat × Nat} (h : validTime t) (h' : validTime t')
    (he : scanIdx t = scanIdx t') : t = t' := by
  rcases t with ⟨a, b⟩
  rcases t' with ⟨c, d⟩
  simp only [validTime, scanIdx] at *
  simp only [Prod.mk.injEq]
  omega

theorem exists_scan_hit {t e : Nat × Nat} (ht : validTime t) (he : validTime e) :
    ∃ k < 1440, scanStep^[k] t = e := by
  refine ⟨(scanIdx t + 1440 - scanIdx e) % 1440, Nat.mod_lt _ (by omega), ?_⟩
  apply scanIdx_inj (scanIter_valid _ ht) he
  rw [scanIter_idx _ ht]
  have ha : scanIdx t < 1440 := by
    obtain ⟨h1, h2⟩ := ht; simp only [scanIdx]; omega
  have hb : scanIdx e < 1440 := by
    obtain ⟨h1, h2⟩ := he; simp only [scanIdx]; omega
  omega

theorem checkMinute_fst_zero {cfg : ScheduleConfig} {sh sm v : Nat} :
    (checkMinute cfg sh sm v).1 = 0 ↔ ¬ hitsAny cfg (sh, sm) := by
  simp only [checkMinute, hitsAny, DAY, EVENING, NIGHT]
  split_ifs <;> simp_all

theorem checkMinute_fst_mem {cfg : ScheduleConfig} {sh sm v : Nat} :
    (checkMinute cfg sh sm v).1 = 0 ∨ (checkMinute cfg sh sm v).1 = DAY ∨
    (checkMinute cfg sh sm v).1 = EVENING ∨ (checkMinute cfg sh sm v).1 = NIGHT := by
  simp only [checkMinute, DAY, EVENING, NIGHT]
  split_ifs <;> simp

theorem scanLoop_some_of_hit (cfg : ScheduleConfig) :
    ∀ (fuel k sh sm vol : Nat), k < fuel →
      hitsAny cfg (scanStep^[k] (sh, sm)) →
      ∃ r, scanLoop (checkMinute cfg) fuel sh sm vol = some r := by
  intro fuel
  induction fuel with
  | zero => intro k _ _ _ hk _; omega
  | succ n ih =>
    intro k sh sm vol hk hhit
    by_cases h0 : (checkMinute cfg sh sm vol).1 ≠ 0
    · exact ⟨checkMinute cfg sh sm vol, by simp [scanLoop, h0]⟩
    · push_neg at h0
      have hmiss : ¬ hitsAny cfg (sh, sm) := checkMinute_fst_zero.mp h0
      have hk0 : k ≠ 0 := by
        rintro rfl
        rw [Function.iterate_zero_apply] at hhit
        exact hmiss hhit
      obtain ⟨j, rfl⟩ : ∃ j, k = j + 1 := ⟨k - 1, by omega⟩
      rw [Function.iterate_succ_apply] at hhit
      obtain ⟨r, hr⟩ :=
        ih j (scanStep (sh, sm)).1 (scanStep (sh, sm)).2 (checkMinute cfg sh sm vol).2
          (by omega) hhit
      exact ⟨r, by simp [scanLoop, h0, hr]⟩

theorem scanLoop_result_mem (cfg : ScheduleConfig) :
    ∀ (fuel sh sm vol : Nat) (r : Nat × Nat),
      scanLoop (checkMinute cfg) fuel sh sm vol = some r →
      r.1 = DAY ∨ r.1 = EVENING ∨ r.1 = NIGHT := by
  intro fuel
  induction fuel with
  | zero => intro sh sm vol r hr; simp [scanLoop] at hr
  | succ n ih =>
    intro sh sm vol r hr
    by_cases h0 : (checkMinute cfg sh sm vol).1 ≠ 0
    · simp [scanLoop, h0] at hr
      rcases @checkMinute_fst_mem cfg sh sm vol with h | h | h | h
      · exact absurd h h0
      all_goals rw [← hr]; simp [h]
    · push_neg at h0
      simp [scanLoop, h0] at hr
      exact ih _ _ _ r hr

/-- C4: for every valid current time and every configuration in which at
least one of the three schedule entries has a valid hour and minute, the
backward minute-by-minute scan terminates within 1440 scan steps and
returns exactly one of the periods Day, Evening, Night. -/
theorem schedule_scan_terminates (cfg : ScheduleConfig) (h m vol : Nat)
    (hh : h < 24) (hm : m < 60)
    (hcfg : (cfg.day_hour < 24 ∧ cfg.day_minute < 60) ∨
            (cfg.evening_hour < 24 ∧ cfg.evening_minute < 60) ∨
            (cfg.night_hour < 24 ∧ cfg.night_minute < 60)) :
    ∃ r, set_volume_to_current_time cfg h m vol = some r ∧
      (r.1 = DAY ∨ r.1 = EVENING ∨ r.1 = NIGHT) := by
  have hv : validTime (h, m) := ⟨hh, hm⟩
  have hhit : ∃ k < 1440, hitsAny cfg (scanStep^[k] (h, m)) := by
    rcases hcfg with he | he | he
    · obtain ⟨k, hk, hke⟩ := exists_scan_hit hv (show validTime (cfg.day_hour, cfg.day_minute) from he)
      exact ⟨k, hk, by rw [hke]; exact Or.inl ⟨rfl, rfl⟩⟩
    · obtain ⟨k, hk, hke⟩ := exists_scan_hit hv (show validTime (cfg.evening_hour, cfg.evening_minute) from he)
      exact ⟨k, hk, by rw [hke]; exact Or.inr (Or.inl ⟨rfl, rfl⟩)⟩
    · obtain ⟨k, hk, hke⟩ := exists_scan_hit hv (show validTime (cfg.night_hour, cfg.night_minute) from he)
      exact ⟨k, hk, by rw [hke]; exact Or.inr (Or.inr ⟨rfl, rfl⟩)⟩
  obtain ⟨k, hk, hka⟩ := hhit
  obtain ⟨r, hr⟩ := scanLoop_some_of_hit cfg 1440 k h m vol hk hka
  exact ⟨r, hr, scanLoop_result_mem cfg 1440 h m vol r hr⟩

/-- Witness for `schedule_scan_terminates` at the example configuration and
the concrete time 12:30. -/
theorem schedule_scan_terminates_witness :
    ∃ r, set_volume_to_current_time exampleCfg 12 30 0 = some r ∧
      (r.1 = DAY ∨ r.1 = EVENING ∨ r.1 = NIGHT) :=
  schedule_scan_terminates exampleCfg 12 30 0 (by decide) (by decide)
    (Or.inl (by decide))

/-- C5: when two or more schedule entries share the same trigger time and
that minute is the matched scan minute, the entry checked last in the fixed
order Day, Evening, Night determines the returned period, and that winning
entry's value becomes the target (the scan returns at the minute where the
if-chain first fires, so the statement quantifies over the scan state with
which the matched minute is reached). -/
theorem schedule_tie_break (cfg : ScheduleConfig) (fuel sh sm vol : Nat) :
    ((sh = cfg.night_hour ∧ sm = cfg.night_minute) →
      scanLoop (checkMinute cfg) (fuel + 1) sh sm vol = some (NIGHT, cfg.night_volume)) ∧
    ((sh = cfg.evening_hour ∧ sm = cfg.evening_minute) →
      ¬(sh = cfg.night_hour ∧ sm = cfg.night_minute) →
      scanLoop (checkMinute cfg) (fuel + 1) sh sm vol = some (EVENING, cfg.evening_volume)) ∧
    ((sh = cfg.day_hour ∧ sm = cfg.day_minute) →
      ¬(sh = cfg.evening_hour ∧ sm = cfg.evening_minute) →
      ¬(sh = cfg.night_hour ∧ sm = cfg.night_minute) →
      scanLoop (checkMinute cfg) (fuel + 1) sh sm vol = some (DAY, cfg.day_volume)) := by
  refine ⟨fun hn => ?_, fun he hn => ?_, fun hd he hn => ?_⟩
  · obtain ⟨h1, h2⟩ := hn
    subst h1; subst h2
    simp [scanLoop, checkMinute, NIGHT]
  · obtain ⟨h1, h2⟩ := he
    subst h1; subst h2
    simp [scanLoop, checkMinute, hn, EVENING]
  · obtain ⟨h1, h2⟩ := hd
    subst h1; subst h2
    simp [scanLoop, checkMinute, hn, he, DAY]

/-- Witness for `schedule_tie_break`: with all three entries at 09:30, the
scan from 09:30 returns Night with the Night entry's volume. -/
theorem schedule_tie_break_witness :
    scanLoop (checkMinute tripleTieCfg) 1 9 30 0 = some (NIGHT, 5) :=
  (schedule_tie_break tripleTieCfg 0 9 30 0).1 (by decide)

theorem checkMinuteMcmc_fst_zero {cfg : ScheduleConfig} {sh sm v : Nat} :
    (checkMinuteMcmc cfg sh sm v).1 = 0 ↔ ¬ hitsAny cfg (sh, sm) := by
  simp only [checkMinuteMcmc, hitsAny, DAY, EVENING, NIGHT]
  split_ifs <;> simp_all

theorem checkMinuteMcmc_snd_frame {cfg : ScheduleConfig} {sh sm v : Nat}
    (hd : ¬(sh = cfg.day_hour ∧ sm = cfg.day_minute))
    (he : ¬(sh = cfg.evening_hour ∧ sm = cfg.evening_minute)) :
    (checkMinuteMcmc cfg sh sm v).2 = v := by
  simp only [checkMinuteMcmc]
  split_ifs <;> simp_all

theorem checkMinuteMcmc_night_of_fst {cfg : ScheduleConfig} {sh sm v : Nat}
    (h : (checkMinuteMcmc cfg sh sm v).1 = NIGHT) :
    sh = cfg.night_hour ∧ sm = cfg.night_minute := by
  by_contra hc
  revert h
  simp only [checkMinuteMcmc, DAY, EVENING, NIGHT]
  split_ifs <;> simp_all

theorem scanLoopMcmc_night_vol (cfg : ScheduleConfig)
    (hd : ¬(cfg.night_hour = cfg.day_hour ∧ cfg.night_minute = cfg.day_minute))
    (he : ¬(cfg.night_hour = cfg.evening_hour ∧ cfg.night_minute = cfg.evening_minute)) :
    ∀ (fuel sh sm vol r : Nat),
      scanLoop (checkMinuteMcmc cfg) fuel sh sm vol = some (NIGHT, r) → r = vol := by
  intro fuel
  induction fuel with
  | zero => intro sh sm vol r hr; simp [scanLoop] at hr
  | succ n ih =>
    intro sh sm vol r hr
    by_cases h0 : (checkMinuteMcmc cfg sh sm vol).1 ≠ 0
    · simp [scanLoop, h0] at hr
      have h3 : (checkMinuteMcmc cfg sh sm vol).1 = NIGHT := by rw [hr]
      obtain ⟨hsh, hsm⟩ := checkMinuteMcmc_night_of_fst h3
      have hdm : ¬(sh = cfg.day_hour ∧ sm = cfg.day_minute) := by
        rintro ⟨h1, h2⟩; exact hd ⟨by omega, by omega⟩
      have hem : ¬(sh = cfg.evening_hour ∧ sm = cfg.evening_minute) := by
        rintro ⟨h1, h2⟩; exact he ⟨by omega, by omega⟩
      have := @checkMinuteMcmc_snd_frame cfg sh sm vol hdm hem
      rw [hr] at this
      exact this
    · push_neg at h0
      have hmiss : ¬ hitsAny cfg (sh, sm) := checkMinuteMcmc_fst_zero.mp h0
      have hsnd : (checkMinuteMcmc cfg sh sm vol).2 = vol := by
        apply checkMinuteMcmc_snd_frame
        · exact fun hc => hmiss (Or.inl hc)
        · exact fun hc => hmiss (Or.inr (Or.inl hc))
      simp [scanLoop, h0, hsnd] at hr
      exact ih _ _ _ r hr

/-- C10 (counterexample to the unconditional claim): in the MCMC variant, when
the Evening and Night entries share the trigger minute 22:00, a query at
22:30 with the volume variable holding 99 matches the Night entry yet
returns volume 40 (the Evening value written by the earlier branch at the
same scanned minute), so the volume is not left unchanged. -/
theorem mcmc_night_frame_cex :
    set_volume_to_current_time_mcmc tieCfg 22 30 99 = some (NIGHT, 40) ∧
      (40 : Nat) ≠ 99 := by
  constructor
  · rfl
  · decide

/-- C10 (amended): in the MCMC variant, whenever the Night trigger time does
not coincide with the Day or the Evening trigger time, a scan that matches
the Night entry leaves the volume variable unchanged (the Night branch sets
only the period), and `auto_off_at_night` switches the mechanism, mixer and
light outputs off for the Night period. -/
theorem mcmc_night_frame (cfg : ScheduleConfig) (fuel sh sm vol r : Nat)
    (o : MachineOutputs)
    (hd : ¬(cfg.night_hour = cfg.day_hour ∧ cfg.night_minute = cfg.day_minute))
    (he : ¬(cfg.night_hour = cfg.evening_hour ∧ cfg.night_minute = cfg.evening_minute))
    (hscan : scanLoop (checkMinuteMcmc cfg) fuel sh sm vol = some (NIGHT, r)) :
    r = vol ∧ auto_off_at_night NIGHT o =
      { mech_on := false, mixer := false, light := false } := by
  refine ⟨scanLoopMcmc_night_vol cfg hd he fuel sh sm vol r hscan, ?_⟩
  simp [auto_off_at_night, DAY, EVENING, NIGHT]

/-- Witness for `mcmc_night_frame` at the example configuration: a 23:30
query returns the Night period carrying the unchanged volume 55, and the
outputs are all off. -/
theorem mcmc_night_frame_witness :
    set_volume_to_current_time_mcmc exampleCfg 23 30 55 = some (NIGHT, 55) ∧
      auto_off_at_night NIGHT ⟨true, true, true⟩ =
        { mech_on := false, mixer := false, light := false } := by
  have h : set_volume_to_current_time_mcmc exampleCfg 23 30 55 = some (NIGHT, 55) := by rfl
  have h2 := mcmc_night_frame exampleCfg 1440 23 30 55 55 ⟨true, true, true⟩
    (by decide) (by decide) h
  exact ⟨h, h2.2⟩

theorem servo_attach_block_servo_pos (d : Int) (s : ServoState) :
    (servo_attach_block d s).servo_pos = s.servo_pos := by
  simp only [servo_attach_block]
  split <;> rfl

theorem servo_attach_block_p_desired (d : Int) (s : ServoState) :
    (servo_attach_block d s).p_desired_servo_pos = d := by
  simp only [servo_attach_block]
  split <;> simp_all

theorem servo_idle_block_servo_pos (d : Int) (s : ServoState) :
    (servo_idle_block d s).servo_pos = s.servo_pos := by
  simp only [servo_idle_block]
  split <;> rfl

theorem servo_idle_block_p_desired (d : Int) (s : ServoState) :
    (servo_idle_block d s).p_desired_servo_pos = s.p_desired_servo_pos := by
  simp only [servo_idle_block]
  split <;> rfl

theorem servo_detach_block_servo_pos (s : ServoState) :
    (servo_detach_block s).servo_pos = s.servo_pos := by
  simp only [servo_detach_block]
  split <;> rfl

theorem servo_detach_block_p_desired (s : ServoState) :
    (servo_detach_block s).p_desired_servo_pos = s.p_desired_servo_pos := by
  simp only [servo_detach_block]
  split <;> rfl

theorem servo_move_block_p_desired (d : Int) (da : Nat) (s : ServoState) :
    (servo_move_block d da s).p_desired_servo_pos = s.p_desired_servo_pos := by
  simp only [servo_move_block]
  split <;> rfl

theorem servo_step_pos_gradual (d pos : Int) :
    servo_step_pos d 0 pos =
      if pos < d then pos + 1 else if d < pos then pos - 1 else pos := by
  simp only [servo_step_pos]
  split_ifs <;> first | omega | (exfalso; assumption)

theorem servo_step_pos_immediate (d pos : Int) :
    servo_step_pos d 1 pos = d := by
  simp only [servo_step_pos]
  split_ifs <;> rfl

theorem servo_move_block_servo_pos (d : Int) (s : ServoState) :
    (servo_move_block d 0 s).servo_pos =
      if s.servo_pos < d then s.servo_pos + 1
      else if d < s.servo_pos then s.servo_pos - 1
      else s.servo_pos := by
  by_cases h1 : d = s.servo_pos
  · unfold servo_move_block
    rw [if_neg (not_not_intro h1)]
    subst h1
    simp
  · unfold servo_move_block
    rw [if_pos h1]
    show servo_step_pos d 0 s.servo_pos = _
    rw [servo_step_pos_gradual]

theorem servo_move_block_servo_pos_immediate (d : Int) (s : ServoState) :
    (servo_move_block d 1 s).servo_pos = d := by
  by_cases h1 : d = s.servo_pos
  · unfold servo_move_block
    rw [if_neg (not_not_intro h1)]
    exact h1.symm
  · unfold servo_move_block
    rw [if_pos h1]
    show servo_step_pos d 1 s.servo_pos = _
    rw [servo_step_pos_immediate]

theorem smooth_servo_p_desired (d : Int) (da : Nat) (s : ServoState) :
    (smooth_servo d da s).p_desired_servo_pos = d := by
  simp only [smooth_servo, servo_detach_block_p_desired, servo_idle_block_p_desired,
    servo_move_block_p_desired, servo_attach_block_p_desired]

theorem smooth_servo_pos (d : Int) (s : ServoState) :
    (smooth_servo d 0 s).servo_pos =
      if s.servo_pos < d then s.servo_pos + 1
      else if d < s.servo_pos then s.servo_pos - 1
      else s.servo_pos := by
  simp only [smooth_servo, servo_detach_block_servo_pos, servo_idle_block_servo_pos,
    servo_move_block_servo_pos, servo_attach_block_servo_pos]

theorem smooth_servo_pos_immediate (d : Int) (s : ServoState) :
    (smooth_servo d 1 s).servo_pos = d := by
  simp only [smooth_servo, servo_detach_block_servo_pos, servo_idle_block_servo_pos,
    servo_move_block_servo_pos_immediate]

theorem servo_gradual_traj (d : Int) (s : ServoState) :
    ∀ k : Nat, k ≤ (d - s.servo_pos).natAbs →
      ((smooth_servo d 0)^[k] s).servo_pos =
        if s.servo_pos ≤ d then s.servo_pos + k else s.servo_pos - k := by
  intro k
  induction k with
  | zero =>
    intro _
    simp only [Function.iterate_zero_apply]
    split_ifs <;> omega
  | succ n ih =>
    intro hk
    have hn : n ≤ (d - s.servo_pos).natAbs := by omega
    rw [Function.iterate_succ_apply', smooth_servo_pos, ih hn]
    split_ifs <;> push_cast <;> omega

/-- C6: under Gradual mode the physical position changes by at most one unit
per invocation; repeated invocation with a fixed target in [0,100] from a
start position in [0,100] reaches the target in exactly the absolute
start-target difference of invocations, closing the distance by one each
step; under Immediate mode the position equals the target after one
invocation. -/
theorem servo_motion (s : ServoState) (dest : Int)
    (h1 : 0 ≤ s.servo_pos) (h2 : s.servo_pos ≤ 100)
    (h3 : 0 ≤ dest) (h4 : dest ≤ 100) :
    (∀ t : Int, ((smooth_servo t 0 s).servo_pos - s.servo_pos).natAbs ≤ 1) ∧
    (∀ k : Nat, k ≤ (dest - s.servo_pos).natAbs →
      (((smooth_servo dest 0)^[k] s).servo_pos - dest).natAbs =
        (dest - s.servo_pos).natAbs - k) ∧
    ((smooth_servo dest 0)^[(dest - s.servo_pos).natAbs] s).servo_pos = dest ∧
    (smooth_servo dest 1 s).servo_pos = dest := by
  refine ⟨fun t => ?_, fun k hk => ?_, ?_, smooth_servo_pos_immediate dest s⟩
  · rw [smooth_servo_pos]
    split_ifs <;> omega
  · rw [servo_gradual_traj dest s k hk]
    split_ifs <;> omega
  · rw [servo_gradual_traj dest s _ le_rfl]
    split_ifs <;> omega

/-- Witness for `servo_motion`: from position 10 the target 13 is reached in
exactly 3 gradual invocations, and in 1 immediate invocation. -/
theorem servo_motion_witness :
    ((smooth_servo 13 0)^[3] servoMotionWitState).servo_pos = 13 ∧
    (smooth_servo 13 1 servoMotionWitState).servo_pos = 13 := by
  have h := servo_motion servoMotionWitState 13 (by decide) (by decide)
    (by decide) (by decide)
  exact ⟨h.2.2.1, h.2.2.2⟩

theorem servo_attach_block_self {d : Int} {s : ServoState}
    (hp : s.p_desired_servo_pos = d) : servo_attach_block d s = s := by
  unfold servo_attach_block
  rw [if_neg (not_not_intro hp.symm)]

theorem servo_move_block_self {d : Int} (da : Nat) {s : ServoState}
    (hpos : s.servo_pos = d) : servo_move_block d da s = s := by
  unfold servo_move_block
  rw [if_neg (not_not_intro hpos.symm)]

theorem servo_idle_block_timeout (d : Int) (s : ServoState) :
    (servo_idle_block d s).detach_timeout =
      if d = s.servo_pos ∧ s.detach_timeout < 51 then s.detach_timeout + 1
      else s.detach_timeout := by
  unfold servo_idle_block
  split_ifs <;> rfl

theorem servo_idle_block_attached (d : Int) (s : ServoState) :
    (servo_idle_block d s).attached = s.attached := by
  unfold servo_idle_block
  split <;> rfl

theorem servo_detach_block_attached (s : ServoState) :
    (servo_detach_block s).attached =
      if s.detach_timeout = 50 then false else s.attached := by
  unfold servo_detach_block
  split_ifs <;> rfl

theorem servo_detach_block_timeout (s : ServoState) :
    (servo_detach_block s).detach_timeout = s.detach_timeout := by
  unfold servo_detach_block
  split <;> rfl

theorem servo_move_block_attached (d : Int) (da : Nat) (s : ServoState) :
    (servo_move_block d da s).attached = s.attached := by
  unfold servo_move_block
  split <;> rfl

theorem smooth_servo_steady_timeout {d : Int} {s : ServoState}
    (hp : s.p_desired_servo_pos = d) (hpos : s.servo_pos = d) :
    (smooth_servo d 0 s).detach_timeout =
      if s.detach_timeout < 51 then s.detach_timeout + 1 else s.detach_timeout := by
  unfold smooth_servo
  rw [servo_attach_block_self hp, servo_move_block_self 0 hpos,
    servo_detach_block_timeout, servo_idle_block_timeout]
  simp [hpos]

theorem smooth_servo_steady_attached {d : Int} {s : ServoState}
    (hp : s.p_desired_servo_pos = d) (hpos : s.servo_pos = d) :
    (smooth_servo d 0 s).attached =
      if (if s.detach_timeout < 51 then s.detach_timeout + 1 else s.detach_timeout) = 50
      then false else s.attached := by
  unfold smooth_servo
  rw [servo_attach_block_self hp, servo_move_block_self 0 hpos,
    servo_detach_block_attached, servo_idle_block_timeout, servo_idle_block_attached]
  simp [hpos]

theorem smooth_servo_steady_pos {d : Int} {s : ServoState}
    (hp : s.p_desired_servo_pos = d) (hpos : s.servo_pos = d) :
    (smooth_servo d 0 s).servo_pos = d := by
  rw [smooth_servo_pos, hpos]
  simp

theorem servo_steady_iter (d : Int) (s : ServoState)
    (hp : s.p_desired_servo_pos = d) (hpos : s.servo_pos = d)
    (ht : s.detach_timeout ≤ 51) :
    ∀ k : Nat,
      ((smooth_servo d 0)^[k] s).p_desired_servo_pos = d ∧
      ((smooth_servo d 0)^[k] s).servo_pos = d ∧
      ((smooth_servo d 0)^[k] s).detach_timeout = min (s.detach_timeout + k) 51 ∧
      ((smooth_servo d 0)^[k] s).attached =
        (if s.detach_timeout ≤ 49 ∧ 50 ≤ s.detach_timeout + k then false
         else s.attached) := by
  intro k
  induction k with
  | zero =>
    refine ⟨by simpa using hp, by simpa using hpos, ?_, ?_⟩
    · simp only [Function.iterate_zero_apply]
      omega
    · simp only [Function.iterate_zero_apply]
      split_ifs with h
      · omega
      · rfl
  | succ n ih =>
    obtain ⟨ihp, ihpos, iht, iha⟩ := ih
    rw [Function.iterate_succ_apply']
    refine ⟨smooth_servo_p_desired d 0 _, smooth_servo_steady_pos ihp ihpos, ?_, ?_⟩
    · rw [smooth_servo_steady_timeout ihp ihpos, iht]
      split_ifs <;> omega
    · rw [smooth_servo_steady_attached ihp ihpos, iht, iha]
      split_ifs <;> first | rfl | omega

theorem smooth_servo_change_same {d : Int} {s : ServoState}
    (hne : d ≠ s.p_desired_servo_pos) (hs : d = s.servo_pos) :
    smooth_servo d 0 s =
      { s with attached := true, p_desired_servo_pos := d, detach_timeout := 1 } := by
  subst hs
  unfold smooth_servo servo_attach_block servo_move_block servo_idle_block
    servo_detach_block
  simp [hne]

theorem smooth_servo_arrival {d : Int} {s : ServoState}
    (hne : d ≠ s.p_desired_servo_pos) (hs : d = s.servo_pos + 1) :
    smooth_servo d 0 s =
      { s with attached := true, p_desired_servo_pos := d, servo_pos := d,
               detach_timeout := 2 } := by
  subst hs
  have h1 : s.servo_pos + 1 ≠ s.servo_pos := by omega
  have h2 : s.servo_pos + 1 > s.servo_pos := by omega
  have h3 : ¬(s.servo_pos + 1 < s.servo_pos + 1) := by omega
  unfold smooth_servo servo_attach_block servo_move_block servo_step_pos
    servo_idle_block servo_detach_block
  simp [hne, h1, h2, h3]

theorem smooth_servo_after_change_attached {d : Int} {s : ServoState}
    (hne : d ≠ s.p_desired_servo_pos) :
    (smooth_servo d 0 s).attached = true ∧
    (smooth_servo d 0 s).detach_timeout ≤ 2 := by
  unfold smooth_servo
  have h1 : (servo_attach_block d s).attached = true := by
    unfold servo_attach_block
    rw [if_pos hne]
  have h1t : (servo_attach_block d s).detach_timeout = 0 := by
    unfold servo_attach_block
    rw [if_pos hne]
  have h2 : (servo_move_block d 0 (servo_attach_block d s)).attached = true := by
    rw [servo_move_block_attached]
    exact h1
  have h2t : (servo_move_block d 0 (servo_attach_block d s)).detach_timeout ≤ 1 := by
    unfold servo_move_block
    split_ifs <;> simp [h1t]
  have h3 : (servo_idle_block d (servo_move_block d 0 (servo_attach_block d s))).attached
      = true := by
    rw [servo_idle_block_attached]
    exact h2
  have h3t : (servo_idle_block d (servo_move_block d 0 (servo_attach_block d s))).detach_timeout
      ≤ 2 := by
    rw [servo_idle_block_timeout]
    split_ifs <;> omega
  constructor
  · rw [servo_detach_block_attached, if_neg (by omega), h3]
  · rw [servo_detach_block_timeout]
    exact h3t

set_option maxRecDepth 8000 in
/-- C7 (counterexample to the 50-tick claim): from a detached state at
position 5 with previous target 0, commanding target 5 re-attaches and is
already "arrived" at call 1, yet the driver detaches at call 50 — only 49
calls after arrival, not 50 ("stays attached for at least 50 ticks after
arrival" fails; with an arrival by movement it is even 48 because the
landing call increments the idle counter twice). -/
theorem servo_lifecycle_cex :
    ((smooth_servo 5 0 servoCexState).servo_pos = 5 ∧
      (smooth_servo 5 0 servoCexState).attached = true) ∧
    ((smooth_servo 5 0)^[49] servoCexState).attached = true ∧
    ((smooth_servo 5 0)^[50] servoCexState).attached = false := by
  decide

/-- C7 (amended): any target change re-attaches the actuator, updates the
stored previous target and restarts the idle counter (ending the call at 1
when the position already equals the target); while at the target the idle
counter increments while below 51 and the driver detaches on the call where
the counter reaches exactly 50; this happens 49 calls after a target change
that finds the position already at the target, and 48 calls after an
arrival by one-step movement (the landing call increments the counter
twice) — not 50. -/
theorem servo_power_lifecycle (s : ServoState) (dest : Int) :
    (dest ≠ s.p_desired_servo_pos →
      (smooth_servo dest 0 s).attached = true ∧
      (smooth_servo dest 0 s).p_desired_servo_pos = dest ∧
      (dest = s.servo_pos → (smooth_servo dest 0 s).detach_timeout = 1)) ∧
    (dest = s.p_desired_servo_pos → dest = s.servo_pos → s.detach_timeout < 51 →
      (smooth_servo dest 0 s).detach_timeout = s.detach_timeout + 1) ∧
    (dest = s.p_desired_servo_pos → dest = s.servo_pos → s.detach_timeout = 49 →
      (smooth_servo dest 0 s).attached = false) ∧
    (dest ≠ s.p_desired_servo_pos → dest = s.servo_pos →
      (∀ k : Nat, k ≤ 48 → ((smooth_servo dest 0)^[k + 1] s).attached = true) ∧
      ((smooth_servo dest 0)^[50] s).attached = false) ∧
    (dest ≠ s.p_desired_servo_pos → dest = s.servo_pos + 1 →
      (∀ k : Nat, k ≤ 47 → ((smooth_servo dest 0)^[k + 1] s).attached = true) ∧
      ((smooth_servo dest 0)^[49] s).attached = false) := by
  refine ⟨fun hne => ?_, fun hp hs h51 => ?_, fun hp hs h49 => ?_,
    fun hne hs => ?_, fun hne hs => ?_⟩
  · refine ⟨(smooth_servo_after_change_attached hne).1,
      smooth_servo_p_desired dest 0 s, fun hs => ?_⟩
    rw [smooth_servo_change_same hne hs]
  · rw [smooth_servo_steady_timeout hp.symm hs.symm, if_pos h51]
  · rw [smooth_servo_steady_attached hp.symm hs.symm, h49]
    simp
  · have hx := smooth_servo_change_same hne hs
    constructor
    · intro k hk
      rw [Function.iterate_succ_apply, hx]
      have h := (servo_steady_iter dest
        { s with attached := true, p_desired_servo_pos := dest, detach_timeout := 1 }
        rfl hs.symm (show (1:Nat) ≤ 51 by omega) k).2.2.2
      dsimp only at h
      rw [h, if_neg (by omega)]
    · show ((smooth_servo dest 0)^[49 + 1] s).attached = false
      rw [Function.iterate_succ_apply, hx]
      have h := (servo_steady_iter dest
        { s with attached := true, p_desired_servo_pos := dest, detach_timeout := 1 }
        rfl hs.symm (show (1:Nat) ≤ 51 by omega) 49).2.2.2
      dsimp only at h
      rw [h, if_pos (by omega)]
  · have hx := smooth_servo_arrival hne hs
    constructor
    · intro k hk
      rw [Function.iterate_succ_apply, hx]
      have h := (servo_steady_iter dest
        { s with attached := true, p_desired_servo_pos := dest, servo_pos := dest,
                 detach_timeout := 2 }
        rfl rfl (show (2:Nat) ≤ 51 by omega) k).2.2.2
      dsimp only at h
      rw [h, if_neg (by omega)]
    · show ((smooth_servo dest 0)^[48 + 1] s).attached = false
      rw [Function.iterate_succ_apply, hx]
      have h := (servo_steady_iter dest
        { s with attached := true, p_desired_servo_pos := dest, servo_pos := dest,
                 detach_timeout := 2 }
        rfl rfl (show (2:Nat) ≤ 51 by omega) 48).2.2.2
      dsimp only at h
      rw [h, if_pos (by omega)]

/-- Witness for `servo_power_lifecycle`: commanding target 7 from the
detached state at position 7 re-attaches with idle counter 1, stays
attached through call 49 and is detached at call 50. -/
theorem servo_power_lifecycle_witness :
    (smooth_servo 7 0 servoWitState).attached = true ∧
    (smooth_servo 7 0 servoWitState).detach_timeout = 1 ∧
    ((smooth_servo 7 0)^[49] servoWitState).attached = true ∧
    ((smooth_servo 7 0)^[50] servoWitState).attached = false := by
  have h := servo_power_lifecycle servoWitState 7
  have h1 := h.1 (by decide)
  have h4 := h.2.2.2.1 (by decide) (by decide)
  exact ⟨h1.1, h1.2.2 (by decide), h4.1 48 (by decide), h4.2⟩

theorem measure_crank_speed_trigger (cfg : CrankConfig) (now : Int) (s : CrankState)
    (hrot : s.rotation = 0) :
    measure_crank_speed cfg true now s =
      if 5 ≤ crank_count_update cfg.rpm_thresh (now - s.crank_time) s.crank_speed_limit_count then
        { rotation := 1, crank_speed_limit_count := 0, crank_time := now,
          p_crank_time := s.crank_time, ms_per_rotation := now - s.crank_time,
          mech_on := false, lockout_fired := true }
      else
        { rotation := 1,
          crank_speed_limit_count :=
            crank_count_update cfg.rpm_thresh (now - s.crank_time) s.crank_speed_limit_count,
          crank_time := now, p_crank_time := s.crank_time,
          ms_per_rotation := now - s.crank_time,
          mech_on := s.mech_on, lockout_fired := false } := by
  unfold measure_crank_speed
  simp [hrot]

theorem measure_crank_speed_no_trigger (cfg : CrankConfig) (closed : Bool) (now : Int)
    (s : CrankState) (hno : ¬(closed = true ∧ s.rotation = 0)) :
    measure_crank_speed cfg closed now s =
      if 5 ≤ s.crank_speed_limit_count then
        { s with rotation := if closed = true then 1 else 0,
                 crank_speed_limit_count := 0, mech_on := false, lockout_fired := true }
      else
        { s with rotation := if closed = true then 1 else 0, lockout_fired := false } := by
  unfold measure_crank_speed
  simp only [if_neg hno]

theorem crank_count_le_four (cfg : CrankConfig) (closed : Bool) (now : Int)
    (s : CrankState) :
    (measure_crank_speed cfg closed now s).crank_speed_limit_count ≤ 4 := by
  by_cases htrig : closed = true ∧ s.rotation = 0
  · obtain ⟨hc, hrot⟩ := htrig
    subst hc
    rw [measure_crank_speed_trigger cfg now s hrot]
    by_cases h5 : 5 ≤ crank_count_update cfg.rpm_thresh (now - s.crank_time) s.crank_speed_limit_count
    · rw [if_pos h5]
      show (0 : Nat) ≤ 4
      omega
    · rw [if_neg h5]
      show crank_count_update cfg.rpm_thresh (now - s.crank_time) s.crank_speed_limit_count ≤ 4
      omega
  · rw [measure_crank_speed_no_trigger cfg closed now s htrig]
    by_cases h5 : 5 ≤ s.crank_speed_limit_count
    · rw [if_pos h5]
      show (0 : Nat) ≤ 4
      omega
    · rw [if_neg h5]
      show s.crank_speed_limit_count ≤ 4
      omega

/-- C2: on every registered rotation the violation counter is incremented
exactly when the measured interval is strictly below the threshold and is
reset to 0 otherwise; an interval exactly equal to the threshold is not a
violation and resets the counter; the full evaluation applies exactly this
update on a rising edge while below the lockout level. -/
theorem crank_threshold_strict (thresh msr : Int) (cnt : Nat) :
    (msr < thresh → crank_count_update thresh msr cnt = cnt + 1) ∧
    (thresh ≤ msr → crank_count_update thresh msr cnt = 0) ∧
    (msr = thresh → crank_count_update thresh msr cnt = 0) ∧
    (∀ (cfg : CrankConfig) (s : CrankState) (now : Int),
      s.rotation = 0 → s.crank_speed_limit_count ≤ 3 → cfg.rpm_thresh = thresh →
      (measure_crank_speed cfg true now s).crank_speed_limit_count =
        crank_count_update thresh (now - s.crank_time) s.crank_speed_limit_count) := by
  refine ⟨fun h => by simp [crank_count_update, h],
    fun h => by rw [crank_count_update, if_neg (by omega)],
    fun h => by rw [crank_count_update, if_neg (by omega)],
    fun cfg s now hrot hcnt hth => ?_⟩
  rw [← hth]
  have hle : ¬ 5 ≤ crank_count_update cfg.rpm_thresh (now - s.crank_time) s.crank_speed_limit_count := by
    unfold crank_count_update
    split_ifs <;> omega
  rw [measure_crank_speed_trigger cfg now s hrot, if_neg hle]

/-- Witness for `crank_threshold_strict` at threshold 400 ms: a 399 ms
rotation is a violation (counter 2 to 3), a rotation of exactly 400 ms
resets the counter, and a full evaluation on a rising edge applies the same
update. -/
theorem crank_threshold_strict_witness :
    crank_count_update 400 399 2 = 3 ∧ crank_count_update 400 400 2 = 0 ∧
    (measure_crank_speed crankWitCfg true 1399 crankEdgeState).crank_speed_limit_count = 3 := by
  have h := crank_threshold_strict 400 399 2
  have h400 := crank_threshold_strict 400 400 2
  refine ⟨h.1 (by decide), h400.2.2.1 rfl, ?_⟩
  have h4 := h.2.2.2 crankWitCfg crankEdgeState 1399 rfl (by decide) rfl
  rw [h4]
  decide

/-- C9: a new rotation interval is measured, and the violation counter
updated, only on the evaluation where the switch transitions from open to
closed; on every other evaluation (switch held closed, or open) the trigger
does not fire and the interval state, the counter, the clutch pin are all
unchanged and no lockout runs. -/
theorem crank_edge_triggered (cfg : CrankConfig) (closed : Bool) (now : Int)
    (s : CrankState) (hcnt : s.crank_speed_limit_count ≤ 4)
    (hnotedge : ¬(closed = true ∧ s.rotation = 0)) :
    (measure_crank_speed cfg closed now s).crank_speed_limit_count =
        s.crank_speed_limit_count ∧
    (measure_crank_speed cfg closed now s).crank_time = s.crank_time ∧
    (measure_crank_speed cfg closed now s).p_crank_time = s.p_crank_time ∧
    (measure_crank_speed cfg closed now s).ms_per_rotation = s.ms_per_rotation ∧
    (measure_crank_speed cfg closed now s).lockout_fired = false ∧
    (measure_crank_speed cfg closed now s).mech_on = s.mech_on := by
  rw [measure_crank_speed_no_trigger cfg closed now s hnotedge,
    if_neg (show ¬5 ≤ s.crank_speed_limit_count by omega)]
  exact ⟨rfl, rfl, rfl, rfl, rfl, rfl⟩

/-- Witness for `crank_edge_triggered`: with the switch held closed
(rotation already 1) nothing about the measurement changes and no lockout
fires. -/
theorem crank_edge_triggered_witness :
    (measure_crank_speed crankWitCfg true 1100 crankHeldState).crank_speed_limit_count = 2 ∧
    (measure_crank_speed crankWitCfg true 1100 crankHeldState).crank_time = 1000 ∧
    (measure_crank_speed crankWitCfg true 1100 crankHeldState).lockout_fired = false := by
  have h := crank_edge_triggered crankWitCfg true 1100 crankHeldState (by decide) (by decide)
  exact ⟨h.1, h.2.1, h.2.2.2.2.1⟩

/-- C1: on the evaluation registering the 5th consecutive too-fast rotation
the lockout runs and the clutch is cut off within that same evaluation, and
the violation counter leaves the lockout reset to 0, so a 6th consecutive
fast rotation (next rising edge after the lockout) only brings the counter
to 1 and fires no second lockout. -/
theorem governor_cutoff_lockout (cfg : CrankConfig) (s : CrankState)
    (now now2 now3 : Int)
    (hrot : s.rotation = 0) (hcnt : s.crank_speed_limit_count = 4)
    (hfast : now - s.crank_time < cfg.rpm_thresh) :
    (measure_crank_speed cfg true now s).lockout_fired = true ∧
    (measure_crank_speed cfg true now s).mech_on = false ∧
    (measure_crank_speed cfg true now s).crank_speed_limit_count = 0 ∧
    (now3 - now < cfg.rpm_thresh →
      (measure_crank_speed cfg true now3
        (measure_crank_speed cfg false now2
          (measure_crank_speed cfg true now s))).lockout_fired = false ∧
      (measure_crank_speed cfg true now3
        (measure_crank_speed cfg false now2
          (measure_crank_speed cfg true now s))).crank_speed_limit_count = 1) := by
  have hupd : crank_count_update cfg.rpm_thresh (now - s.crank_time)
      s.crank_speed_limit_count = 5 := by
    rw [crank_count_update, if_pos hfast, hcnt]
  have h1 : measure_crank_speed cfg true now s =
      { rotation := 1, crank_speed_limit_count := 0, crank_time := now,
        p_crank_time := s.crank_time, ms_per_rotation := now - s.crank_time,
        mech_on := false, lockout_fired := true } := by
    rw [measure_crank_speed_trigger cfg now s hrot, hupd, if_pos (by omega)]
  have h2 : measure_crank_speed cfg false now2 (measure_crank_speed cfg true now s) =
      { rotation := 0, crank_speed_limit_count := 0, crank_time := now,
        p_crank_time := s.crank_time, ms_per_rotation := now - s.crank_time,
        mech_on := false, lockout_fired := false } := by
    rw [h1, measure_crank_speed_no_trigger cfg false now2 _ (by simp)]
    simp
  refine ⟨by rw [h1], by rw [h1], by rw [h1], fun hfast3 => ?_⟩
  rw [h2, measure_crank_speed_trigger cfg now3 _ rfl]
  dsimp only
  have hupd3 : crank_count_update cfg.rpm_thresh (now3 - now) 0 = 1 := by
    rw [crank_count_update, if_pos hfast3]
  rw [hupd3, if_neg (by omega)]
  exact ⟨rfl, rfl⟩

/-- Witness for `governor_cutoff_lockout` at threshold 400 ms: the 5th fast
edge at t=1300 fires the lockout and cuts the clutch, and the next fast
edge after an open tick only brings the counter to 1 with no lockout. -/
theorem governor_cutoff_lockout_witness :
    (measure_crank_speed crankWitCfg true 1300 crankWitState).lockout_fired = true ∧
    (measure_crank_speed crankWitCfg true 1300 crankWitState).mech_on = false ∧
    (measure_crank_speed crankWitCfg true 1300 crankWitState).crank_speed_limit_count = 0 ∧
    (measure_crank_speed crankWitCfg true 1600
      (measure_crank_speed crankWitCfg false 1400
        (measure_crank_speed crankWitCfg true 1300 crankWitState))).lockout_fired = false ∧
    (measure_crank_speed crankWitCfg true 1600
      (measure_crank_speed crankWitCfg false 1400
        (measure_crank_speed crankWitCfg true 1300 crankWitState))).crank_speed_limit_count = 1 := by
  have h := governor_cutoff_lockout crankWitCfg crankWitState 1300 1400 1600
    (by decide) (by decide) (by decide)
  have h4 := h.2.2.2 (by decide)
  exact ⟨h.1, h.2.1, h.2.2.1, h4.1, h4.2⟩

/-- C8 (counterexample to the full-range round-trip): the UI can set the
rotation threshold to 2000 ms (`map(POTI,1023,0,100,2000)`), but
`EEPROM.write(RPM_THRESH, rpm_thresh)` stores a single byte, so reading it
back yields 2000 mod 256 = 208, not 2000. -/
theorem eeprom_roundtrip_cex :
    EEPROM_read (EEPROM_write (fun _ => 0) RPM_THRESH 2000) RPM_THRESH = 208 ∧
    (208 : Nat) ≠ 2000 := by
  constructor
  · rfl
  · decide

/-- C8 (amended): writing a configuration value and re-reading it without an
intervening write yields the same value exactly when the value fits in one
byte (all schedule hours, minutes and volumes do); threshold and lockout
values above 255 — reachable through the UI ranges 100..2000 ms and up to
999 s — read back reduced mod 256 through the byte-wide write path. -/
theorem eeprom_roundtrip (store : Nat → Nat) (addr val : Nat) :
    (val < 256 → EEPROM_read (EEPROM_write store addr val) addr = val) ∧
    EEPROM_read (EEPROM_write store addr val) addr = val % 256 := by
  constructor
  · intro h
    simp [EEPROM_read, EEPROM_write]
    omega
  · simp [EEPROM_read, EEPROM_write]

/-- Witness for `eeprom_roundtrip`: the day volume 77 survives the
round-trip through its EEPROM cell. -/
theorem eeprom_roundtrip_witness :
    EEPROM_read (EEPROM_write (fun _ => 0) DAY_VOLUME 77) DAY_VOLUME = 77 :=
  (eeprom_roundtrip (fun _ => 0) DAY_VOLUME 77).1 (by decide)

end TBC
